import Mathlib

/-!
Shallow embedding of the xreal IMU driver source file
src/interface_lib/src/device_imu.c, together with theorems settling the
specification claims about it.

Modelling conventions:
* Bytes are natural numbers (the C code stores them in uint8_t, so they are
  below 256; theorems carry that bound as a hypothesis where it matters).
  C bitwise operators are kept as Nat bitwise operators.
* C float arithmetic is modelled over the rationals exactly; the concrete
  inputs used in the theorems only involve values on which IEEE single
  precision arithmetic is exact.  Where control flow depends on the NaN-ness
  of a float (the magnetometer branch and the orientation check in
  device_imu_read), the float is modelled by an explicit classification
  type FVal (finite / infinite / NaN), since a rational cannot be NaN.
* External collaborators that are out of scope of the repository (the HID
  transport, the CRC-32 primitive, the JSON document reader, the Fusion AHRS
  engine and its quaternion helpers) enter as oracle parameters of the
  definitions, exactly at the call boundaries the C code uses.
-/

/-- Error results of the driver (device_imu_error_type in the public header,
mirrored by the names used in device_imu.c). -/
inductive DeviceImuError where
  | noError
  | noDevice
  | notReady
  | noHandle
  | noAllocation
  | payloadFailed
  | fileNotOpen
  | fileNotClosed
  | loadingFailed
  | savingFailed
  | wrongSize
  | unplugged
  | unexpected
  | wrongSignature
  | invalidValue
  deriving DecidableEq, Repr

/-- 3-component vector of exactly-modelled float values (FusionVector). -/
structure Vec3 where
  x : ℚ
  y : ℚ
  z : ℚ
  deriving DecidableEq, Repr

/-- 3x3 matrix of exactly-modelled float values (FusionMatrix). -/
structure Mat3 where
  xx : ℚ
  xy : ℚ
  xz : ℚ
  yx : ℚ
  yy : ℚ
  yz : ℚ
  zx : ℚ
  zy : ℚ
  zz : ℚ
  deriving DecidableEq, Repr

/-- Quaternion of exactly-modelled float values (FusionQuaternion). -/
structure Quat where
  x : ℚ
  y : ℚ
  z : ℚ
  w : ℚ
  deriving DecidableEq, Repr

/-- FUSION_VECTOR_ZERO. -/
def vecZero : Vec3 := ⟨0, 0, 0⟩

/-- FUSION_VECTOR_ONES. -/
def vecOnes : Vec3 := ⟨1, 1, 1⟩

/-- FUSION_IDENTITY_MATRIX. -/
def matIdentity : Mat3 := ⟨1, 0, 0, 0, 1, 0, 0, 0, 1⟩

/-- FUSION_IDENTITY_QUATERNION (w = 1, vector part zero). -/
def quatIdentity : Quat := ⟨0, 0, 0, 1⟩

/-- FusionVectorAdd. -/
def vecAdd (a b : Vec3) : Vec3 := ⟨a.x + b.x, a.y + b.y, a.z + b.z⟩

/-- FusionVectorSubtract. -/
def vecSub (a b : Vec3) : Vec3 := ⟨a.x - b.x, a.y - b.y, a.z - b.z⟩

/-- FusionVectorMultiplyScalar. -/
def vecScale (a : Vec3) (s : ℚ) : Vec3 := ⟨a.x * s, a.y * s, a.z * s⟩

/-! ## Bit-packing codecs (device_imu.c lines 462-491)

The C functions take a byte pointer; here they take the list of bytes of
the field they read.  Out-of-range list access yields 0, which never occurs
for the fixed-size fields of the packet. -/

/-- Reinterpretation of a value as a signed 16-bit integer
(the C cast of a uint16_t value to int16_t). -/
def toSigned16 (v : ℕ) : ℤ :=
  if v % 65536 < 32768 then (v % 65536 : ℤ) else (v % 65536 : ℤ) - 65536

/-- Reinterpretation of a value as a signed 32-bit integer
(the C cast of a uint32_t value to int32_t). -/
def toSigned32 (v : ℕ) : ℤ :=
  if v % 4294967296 < 2147483648 then (v % 4294967296 : ℤ)
  else (v % 4294967296 : ℤ) - 4294967296

/-- pack32bit_signed: little-endian 32-bit signed decode. -/
def pack32bit_signed (data : List ℕ) : ℤ :=
  toSigned32 ((data.getD 0 0) ||| ((data.getD 1 0) <<< 8) |||
    ((data.getD 2 0) <<< 16) ||| ((data.getD 3 0) <<< 24))

/-- pack24bit_signed: little-endian 24-bit signed decode with manual sign
extension through bits 24..31. -/
def pack24bit_signed (data : List ℕ) : ℤ :=
  let u := (data.getD 0 0) ||| ((data.getD 1 0) <<< 8) ||| ((data.getD 2 0) <<< 16)
  let u := if (data.getD 2 0) &&& 0x80 ≠ 0 then u ||| (0xFF <<< 24) else u
  toSigned32 u

/-- pack16bit_signed: little-endian 16-bit signed decode. -/
def pack16bit_signed (data : List ℕ) : ℤ :=
  toSigned16 (((data.getD 1 0) <<< 8) ||| (data.getD 0 0))

/-- pack32bit_signed_swap: byte-swapped (big-endian) 32-bit signed decode. -/
def pack32bit_signed_swap (data : List ℕ) : ℤ :=
  toSigned32 (((data.getD 0 0) <<< 24) ||| ((data.getD 1 0) <<< 16) |||
    ((data.getD 2 0) <<< 8) ||| (data.getD 3 0))

/-- pack16bit_signed_swap: byte-swapped (big-endian) 16-bit signed decode. -/
def pack16bit_signed_swap (data : List ℕ) : ℤ :=
  toSigned16 (((data.getD 0 0) <<< 8) ||| (data.getD 1 0))

/-- pack16bit_signed_bizarre: the low byte is taken raw and the high byte has
its top bit exclusive-ored with 0x80 before assembly. -/
def pack16bit_signed_bizarre (data : List ℕ) : ℤ :=
  toSigned16 ((((data.getD 1 0) ^^^ 0x80) <<< 8) ||| (data.getD 0 0))

/-- Plain arithmetic form of the signed 16-bit little-endian decoding of a
byte pair, as the specification words it (low byte + 256 * high byte,
reinterpreted signed). -/
def signedLE16 (lo hi : ℕ) : ℤ := toSigned16 (lo + 256 * hi)

/-! ## Framing protocol (device_imu.c lines 72-167)

The transport (hidapi) is external: the number of bytes it accepts or
delivers per call enters as the integer `transferred` (hid_write/hid_read
return -1 on a hard error). -/

/-- MAX_PACKET_SIZE. -/
def MAX_PACKET_SIZE : ℕ := 64

/-- send_payload: requests a write of `size` bytes (clamped to 64) and
reports success only when the transport accepted exactly the requested
count. -/
def send_payload (size : ℕ) (transferred : ℤ) : Bool :=
  let payload_size : ℤ := if (size : ℤ) > MAX_PACKET_SIZE then MAX_PACKET_SIZE else (size : ℤ)
  if transferred ≠ payload_size then false
  else transferred == (size : ℤ)

/-- recv_payload: requests a read of `size` bytes (clamped to 64); a result
above the request is clamped down, zero bytes and short reads are failures. -/
def recv_payload (size : ℕ) (transferred : ℤ) : Bool :=
  let payload_size : ℤ := if (size : ℤ) > MAX_PACKET_SIZE then MAX_PACKET_SIZE else (size : ℤ)
  let t : ℤ := if transferred ≥ payload_size then payload_size else transferred
  if t = 0 then false
  else if t ≠ payload_size then false
  else t == (size : ℤ)

/-- Little-endian byte serialization of a 16-bit field (htole16 followed by
the byte layout of the packed struct). -/
def le16 (n : ℕ) : List ℕ := [n % 256, n / 256 % 256]

/-- Little-endian byte serialization of a 32-bit field (htole32 followed by
the byte layout of the packed struct). -/
def le32 (n : ℕ) : List ℕ :=
  [n % 256, n / 256 % 256, n / 65536 % 256, n / 16777216 % 256]

/-- send_payload_msg: builds the on-wire bytes of a
device_imu_payload_packet_t (head, checksum, length, msgid, data) and sends
the first 5 + (3 + len) of them.  The CRC-32 primitive is external and is
passed in as the function `crc`; the code applies it to the
`packet.length`-byte region that starts at the length field.  Returns the
bytes actually handed to the transport and the success flag of the send. -/
def send_payload_msg (crc : List ℕ → ℕ) (msgid : ℕ) (data : List ℕ)
    (transferred : ℤ) : List ℕ × Bool :=
  let len := data.length
  let packet_len := 3 + len
  let payload_len := 5 + packet_len
  let region := le16 packet_len ++ msgid :: data
  let checksum := crc region % 4294967296
  let bytes := 0xAA :: (le32 checksum ++ region)
  (bytes, send_payload payload_len transferred)

/-- recv_payload_msg: reads one frame of 5 + (3 + len) bytes; `transferred`
and `bytes` are what the transport delivered.  The msgid field sits at byte
offset 7 of the packed struct (head 1, checksum 4, length 2).  On a failed
read or a msgid mismatch the frame is dropped and the call fails; on success
the first `len` data bytes (offset 8 onward) are returned. -/
def recv_payload_msg (msgid len : ℕ) (transferred : ℤ) (bytes : List ℕ) :
    Option (List ℕ) :=
  let packet_len := 3 + len
  let payload_len := 5 + packet_len
  if !recv_payload payload_len transferred then none
  else if bytes.getD 7 0 ≠ msgid then none
  else some ((bytes.drop 8).take len)

/-- The number of bytes recv_payload_msg asks the transport for. -/
def recv_payload_msg_request (len : ℕ) : ℕ := 5 + (3 + len)

/-! ## Calibration record (device_imu.c lines 51-68, 352-380) -/

/-- device_imu_calibration_t. -/
structure Calibration where
  gyroscopeMisalignment : Mat3
  gyroscopeSensitivity : Vec3
  gyroscopeOffset : Vec3
  accelerometerMisalignment : Mat3
  accelerometerSensitivity : Vec3
  accelerometerOffset : Vec3
  magnetometerMisalignment : Mat3
  magnetometerSensitivity : Vec3
  magnetometerOffset : Vec3
  softIronMatrix : Mat3
  hardIronOffset : Vec3
  noises : Quat
  deriving DecidableEq, Repr

/-- The record device_imu_reset_calibration writes: identity misalignment and
soft-iron matrices, sensitivity ones, offsets zero, and noises set to the
identity quaternion whose w component is then forced to 0 (so all four
components are 0). -/
def defaultCalibration : Calibration where
  gyroscopeMisalignment := matIdentity
  gyroscopeSensitivity := vecOnes
  gyroscopeOffset := vecZero
  accelerometerMisalignment := matIdentity
  accelerometerSensitivity := vecOnes
  accelerometerOffset := vecZero
  magnetometerMisalignment := matIdentity
  magnetometerSensitivity := vecOnes
  magnetometerOffset := vecZero
  softIronMatrix := matIdentity
  hardIronOffset := vecZero
  noises := ⟨0, 0, 0, 0⟩

/-! ## Magnetometer iron-offset estimator (device_imu.c lines 542-568)

The C function keeps its extrema in two function-static FusionVectors,
initialized to FLT_MIN (the smallest positive normalized single, 2^-126 --
not the most negative float) and FLT_MAX.  The state is modelled by
explicit passing. -/

/-- FLT_MIN of float.h: the smallest positive normalized single. -/
def FLT_MIN : ℚ := 1 / 2 ^ 126

/-- FLT_MAX of float.h. -/
def FLT_MAX : ℚ := 2 ^ 128 - 2 ^ 104

/-- The static extrema state of iterate_iron_offset_estimation. -/
structure IronState where
  maxv : Vec3
  minv : Vec3
  deriving DecidableEq, Repr

/-- Initial value of the static extrema. -/
def ironInit : IronState :=
  ⟨⟨FLT_MIN, FLT_MIN, FLT_MIN⟩, ⟨FLT_MAX, FLT_MAX, FLT_MAX⟩⟩

/-- The extrema update loop of iterate_iron_offset_estimation. -/
def ironUpdate (st : IronState) (m : Vec3) : IronState :=
  ⟨⟨max st.maxv.x m.x, max st.maxv.y m.y, max st.maxv.z m.z⟩,
   ⟨min st.minv.x m.x, min st.minv.y m.y, min st.minv.z m.z⟩⟩

/-- The soft-iron / hard-iron outputs computed from the current extrema.
The soft-iron matrix is zeroed (memset) and then gets 1/((max-min)/2) on the
diagonal; the 1/0 case (IEEE infinity) does not occur in the statements
below, whose inputs keep max-min positive. -/
def ironCompute (st : IronState) : Mat3 × Vec3 :=
  let mx := (st.maxv.x - st.minv.x) / 2
  let my := (st.maxv.y - st.minv.y) / 2
  let mz := (st.maxv.z - st.minv.z) / 2
  let cx := (st.minv.x + st.maxv.x) / 2
  let cy := (st.minv.y + st.maxv.y) / 2
  let cz := (st.minv.z + st.maxv.z) / 2
  (⟨1 / mx, 0, 0, 0, 1 / my, 0, 0, 0, 1 / mz⟩, ⟨cx, cy, cz⟩)

/-- iterate_iron_offset_estimation: one sample updates the static extrema and
recomputes both outputs. -/
def iterate_iron_offset_estimation (st : IronState) (m : Vec3) :
    IronState × Mat3 × Vec3 :=
  let st2 := ironUpdate st m
  (st2, ironCompute st2)

/-- The extrema state after the estimator has seen a whole sample list,
starting from the initial static state. -/
def ironRun (samples : List Vec3) : IronState := samples.foldl ironUpdate ironInit

/-- Per-axis pointwise maximum of two vectors. -/
def vecMax (a b : Vec3) : Vec3 := ⟨max a.x b.x, max a.y b.y, max a.z b.z⟩

/-- Per-axis pointwise minimum of two vectors. -/
def vecMin (a b : Vec3) : Vec3 := ⟨min a.x b.x, min a.y b.y, min a.z b.z⟩

/-- Running per-axis maximum over all samples ever observed, as the
specification words it: no seed other than the samples themselves. -/
def specRunningMax (v : Vec3) (rest : List Vec3) : Vec3 := rest.foldl vecMax v

/-- Running per-axis minimum over all samples ever observed, as the
specification words it. -/
def specRunningMin (v : Vec3) (rest : List Vec3) : Vec3 := rest.foldl vecMin v

/-- The estimator outputs the specification claims: softIron and hardIron
computed from the unseeded running extrema of the observed samples. -/
def specIron (v : Vec3) (rest : List Vec3) : Mat3 × Vec3 :=
  ironCompute ⟨specRunningMax v rest, specRunningMin v rest⟩

/-! ## Calibration download and install during device_imu_open
(device_imu.c lines 246-322)

One "get next calibration segment" round trip is a send_payload_msg followed
by a recv_payload_msg; either can fail.  The transport's behavior per round
trip enters as the oracle `fetch`. -/

/-- Outcome of one calibration-segment round trip. -/
inductive TripResult where
  | sendFail
  | recvFail
  | ok (bytes : List ℕ)
  deriving Repr

/-- Result of the download loop: the bytes written into the buffer, whether
the announced length was fully consumed, the number of round trips started,
and the segment sizes requested from the device. -/
structure DownloadResult where
  data : List ℕ
  completed : Bool
  trips : ℕ
  requests : List ℕ
  deriving DecidableEq, Repr

/-- The while loop of the calibration download: while the announced length is
not consumed, request the next segment of min(56, remaining) bytes; the
first failed send or receive breaks out of the loop. -/
def downloadCal (fetch : ℕ → TripResult) (idx remaining : ℕ) : DownloadResult :=
  if remaining = 0 then ⟨[], true, 0, []⟩
  else
    match fetch idx with
    | .sendFail => ⟨[], false, 1, []⟩
    | .recvFail => ⟨[], false, 1, [min 56 remaining]⟩
    | .ok bytes =>
      let nxt := min 56 remaining
      let r := downloadCal fetch (idx + 1) (remaining - nxt)
      ⟨bytes.take nxt ++ r.data, r.completed, r.trips + 1, nxt :: r.requests⟩
termination_by remaining
decreasing_by omega

/-- The per-device calibration object extracted from the downloaded JSON
document (root -> "IMU" -> "device_1").  The JSON reader is external; a
missing document, a missing key, or a malformed array all surface as `none`
fields here, exactly the cases in which json-c hands the getters a NULL or
non-array object. -/
structure CalDoc where
  accel_bias : Option Vec3
  accel_q_gyro : Option Quat
  gyro_bias : Option Vec3
  gyro_q_mag : Option Quat
  mag_bias : Option Vec3
  imu_noises : Option Quat
  scale_accel : Option Vec3
  scale_gyro : Option Vec3
  scale_mag : Option Vec3

/-- json_object_get_vector: FUSION_VECTOR_ZERO unless the node is a
3-element array. -/
def json_object_get_vector (o : Option Vec3) : Vec3 := o.getD vecZero

/-- json_object_get_quaternion: FUSION_IDENTITY_QUATERNION unless the node
is a 4-element array. -/
def json_object_get_quaternion (o : Option Quat) : Quat := o.getD quatIdentity

/-- The install block of device_imu_open (lines 294-318): reads the nine
fields out of the parsed document and overwrites the calibration record.
FusionQuaternionMultiply and FusionQuaternionToMatrix belong to the external
Fusion library and enter as the parameters `qmul` and `q2m`. -/
def calInstall (qmul : Quat → Quat → Quat) (q2m : Quat → Mat3)
    (doc : Option CalDoc) (cal : Calibration) : Calibration :=
  let accel_bias := json_object_get_vector (doc.bind CalDoc.accel_bias)
  let accel_q_gyro := json_object_get_quaternion (doc.bind CalDoc.accel_q_gyro)
  let gyro_bias := json_object_get_vector (doc.bind CalDoc.gyro_bias)
  let gyro_q_mag := json_object_get_quaternion (doc.bind CalDoc.gyro_q_mag)
  let mag_bias := json_object_get_vector (doc.bind CalDoc.mag_bias)
  let imu_noises := json_object_get_quaternion (doc.bind CalDoc.imu_noises)
  let scale_accel := json_object_get_vector (doc.bind CalDoc.scale_accel)
  let scale_gyro := json_object_get_vector (doc.bind CalDoc.scale_gyro)
  let scale_mag := json_object_get_vector (doc.bind CalDoc.scale_mag)
  let accel_q_mag := qmul accel_q_gyro gyro_q_mag
  { cal with
    gyroscopeMisalignment := q2m accel_q_gyro
    gyroscopeSensitivity := scale_gyro
    gyroscopeOffset := gyro_bias
    accelerometerMisalignment := matIdentity
    accelerometerSensitivity := scale_accel
    accelerometerOffset := accel_bias
    magnetometerMisalignment := q2m accel_q_mag
    magnetometerSensitivity := scale_mag
    magnetometerOffset := mag_bias
    noises := imu_noises }

/-- Outcome of a no-payload request/response exchange that returns a value. -/
inductive MsgExchange (A : Type) where
  | sendFail
  | recvFail
  | ok (v : A)

/-- The calibration phase of device_imu_open, starting at the
GET_CAL_DATA_LENGTH request (line 261), on a record that reset_calibration
has just written.  A failed length request is fatal (payload failed); a
failed length response skips the whole download block and keeps the record;
otherwise the download loop runs, and the buffer -- completed by the
never-written malloc contents `junk` when the loop aborted early -- is parsed
(external JSON tokener, oracle `parse`) and the result installed. -/
def calPhase (qmul : Quat → Quat → Quat) (q2m : Quat → Mat3)
    (lenExch : MsgExchange ℕ) (fetch : ℕ → TripResult) (junk : List ℕ)
    (parse : List ℕ → Option CalDoc) (cal : Calibration) :
    Except DeviceImuError Calibration :=
  match lenExch with
  | .sendFail => .error .payloadFailed
  | .recvFail => .ok cal
  | .ok calibration_len =>
    let dl := downloadCal fetch 0 calibration_len
    let buffer := dl.data ++ junk.take (calibration_len - dl.data.length)
    .ok (calInstall qmul q2m (parse buffer) cal)

/-- The static-id phase of device_imu_open (lines 246-256): a failed request
send returns the payload-failed error; a failed 4-byte response substitutes
the constant 0x20220101; otherwise the received id is kept. -/
def staticIdPhase (sendOk : Bool) (recvRes : Option ℕ) :
    Except DeviceImuError ℕ :=
  if !sendOk then .error .payloadFailed
  else
    match recvRes with
    | some v => .ok v
    | none => .ok 0x20220101

/-! ## Float classification values

Control flow in device_imu_read depends on isnan() of values produced by
the external Fusion engine and by divisions that may yield infinities or
NaNs.  Those values are modelled by an explicit classification. -/

/-- A float as seen by the NaN-sensitive control flow: an exact finite
value, an infinity, or a NaN. -/
inductive FVal where
  | fin (q : ℚ)
  | inf (negative : Bool)
  | nan
  deriving DecidableEq, Repr

/-- isnan() of math.h. -/
def FVal.isnan : FVal → Bool
  | .nan => true
  | _ => false

/-- isfinite() of math.h: neither an infinity nor a NaN. -/
def FVal.isFinite : FVal → Bool
  | .fin _ => true
  | _ => false

/-- 3-component vector of classified float values. -/
structure Vec3F where
  x : FVal
  y : FVal
  z : FVal
  deriving DecidableEq, Repr

/-- Quaternion of classified float values (the orientation read back from
the external AHRS engine). -/
structure QuatF where
  x : FVal
  y : FVal
  z : FVal
  w : FVal
  deriving DecidableEq, Repr

/-- All-zero classified vector. -/
def vec3FZero : Vec3F := ⟨.fin 0, .fin 0, .fin 0⟩

/-- The update operation device_imu_read invokes on the external AHRS
engine, recorded as data. -/
inductive AhrsCall where
  | updateNoMagnetometer (gyroscope accelerometer : Vec3F) (deltaTime : FVal)
  | update (gyroscope accelerometer magnetometer : Vec3F) (deltaTime : FVal)
  deriving DecidableEq, Repr

/-- The events delivered to the caller callback. -/
inductive DeviceImuEvent where
  | init
  | update
  deriving DecidableEq, Repr

/-- The magnetometer branch of device_imu_read (lines 886-893): the
condition tests isnan of the x axis three times, and both branches invoke
the magnetometer-free update (the full update call in the else branch is
commented out in the source). -/
def fusionUpdateCall (g a m : Vec3F) (dt : FVal) : AhrsCall :=
  if m.x.isnan || m.x.isnan || m.x.isnan then
    .updateNoMagnetometer g a dt
  else
    .updateNoMagnetometer g a dt

/-- device_imu_callback (lines 452-460): invokes the caller callback only
when one was registered.  An invocation is recorded as (timestamp, event). -/
def device_imu_callback (callbackSet : Bool) (timestamp : ℕ)
    (event : DeviceImuEvent) : List (ℕ × DeviceImuEvent) :=
  if callbackSet then [(timestamp, event)] else []

/-- The tail of device_imu_read for an accepted data frame (lines 886-906):
when the AHRS engine exists, run the magnetometer branch, read back the
orientation quaternion (an oracle: the engine is external), and fail with
the invalid-value error when any orientation component is NaN; otherwise
dispatch one UPDATE event carrying the frame timestamp.  Returns the error,
the dispatched events, and the AHRS update calls performed. -/
def device_imu_read_fusion (hasAhrs callbackSet : Bool) (g a m : Vec3F)
    (dt : FVal) (orientation : QuatF) (timestamp : ℕ) :
    DeviceImuError × List (ℕ × DeviceImuEvent) × List AhrsCall :=
  if hasAhrs then
    let call := fusionUpdateCall g a m dt
    if orientation.x.isnan || orientation.y.isnan ||
        orientation.z.isnan || orientation.w.isnan then
      (.invalidValue, [], [call])
    else
      (.noError, device_imu_callback callbackSet timestamp .update, [call])
  else
    (.noError, device_imu_callback callbackSet timestamp .update, [])

/-! ## Raw sample packet and device_imu_calibrate
(device_imu.c lines 493-529 and 686-805) -/

/-- Modelled from the spec: device_imu_packet_type is declared in the
repository header device.h, which is not part of the given sources; the
spec fixes it as a packed 64-byte frame holding a 2-byte signature, an
8-byte little-endian timestamp, a 2-byte temperature, and per-sensor raw
axis/multiplier/divisor byte fields.  The fields carry the byte lists the
decoders read; the timestamp is kept already LE-decoded. -/
structure ImuPacket where
  signature0 : ℕ
  signature1 : ℕ
  temperature : List ℕ
  timestamp : ℕ
  angular_multiplier : List ℕ
  angular_divisor : List ℕ
  angular_velocity_x : List ℕ
  angular_velocity_y : List ℕ
  angular_velocity_z : List ℕ
  acceleration_multiplier : List ℕ
  acceleration_divisor : List ℕ
  acceleration_x : List ℕ
  acceleration_y : List ℕ
  acceleration_z : List ℕ
  magnetic_multiplier : List ℕ
  magnetic_divisor : List ℕ
  magnetic_x : List ℕ
  magnetic_y : List ℕ
  magnetic_z : List ℕ
  deriving DecidableEq, Repr

/-- sizeof(device_imu_packet_type): the packed frame is 64 bytes. -/
def device_imu_packet_size : ℕ := 64

/-- readIMU_from_packet: decode raw gyroscope, accelerometer and
magnetometer triplets.  Multiplications and divisions are the C float
operations, modelled exactly over the rationals; a zero divisor yields 0
here where IEEE arithmetic yields a non-finite value, which no theorem
below depends on (the NaN-driven control flow takes explicit FVal inputs). -/
def readIMU_from_packet (p : ImuPacket) : Vec3 × Vec3 × Vec3 :=
  let vel_m : ℚ := (pack16bit_signed p.angular_multiplier : ℤ)
  let vel_d : ℚ := (pack32bit_signed p.angular_divisor : ℤ)
  let vel_x : ℚ := (pack24bit_signed p.angular_velocity_x : ℤ)
  let vel_y : ℚ := (pack24bit_signed p.angular_velocity_y : ℤ)
  let vel_z : ℚ := (pack24bit_signed p.angular_velocity_z : ℤ)
  let accel_m : ℚ := (pack16bit_signed p.acceleration_multiplier : ℤ)
  let accel_d : ℚ := (pack32bit_signed p.acceleration_divisor : ℤ)
  let accel_x : ℚ := (pack24bit_signed p.acceleration_x : ℤ)
  let accel_y : ℚ := (pack24bit_signed p.acceleration_y : ℤ)
  let accel_z : ℚ := (pack24bit_signed p.acceleration_z : ℤ)
  let magnet_m : ℚ := (pack16bit_signed_swap p.magnetic_multiplier : ℤ)
  let magnet_d : ℚ := (pack32bit_signed_swap p.magnetic_divisor : ℤ)
  let magnet_x : ℚ := (pack16bit_signed_bizarre p.magnetic_x : ℤ)
  let magnet_y : ℚ := (pack16bit_signed_bizarre p.magnetic_y : ℤ)
  let magnet_z : ℚ := (pack16bit_signed_bizarre p.magnetic_z : ℤ)
  (⟨vel_x * vel_m / vel_d, vel_y * vel_m / vel_d, vel_z * vel_m / vel_d⟩,
   ⟨accel_x * accel_m / accel_d, accel_y * accel_m / accel_d,
    accel_z * accel_m / accel_d⟩,
   ⟨magnet_x * magnet_m / magnet_d, magnet_y * magnet_m / magnet_d,
    magnet_z * magnet_m / magnet_d⟩)

/-- pre_biased_coordinate_system: FusionAxesSwap with alignment NXNZNY
(external Fusion library; the named alignment selects -x, -z, -y). -/
def pre_biased_coordinate_system (v : Vec3) : Vec3 := ⟨-v.x, -v.z, -v.y⟩

/-- post_biased_coordinate_system: FusionAxesSwap with alignment PZPXPY
(external Fusion library; the named alignment selects z, x, y). -/
def post_biased_coordinate_system (v : Vec3) : Vec3 := ⟨v.z, v.x, v.y⟩

/-- GRAVITY_G. -/
def GRAVITY_G : ℚ := 9.806

/-- M_PI as used by the Fusion degree/radian conversion macros; the value
enters no theorem below, only the structure of the offset update does. -/
def M_PI : ℚ := 3.141592653589793

/-- One result of a 64-byte hid_read on the raw stream: a hard transport
error (-1), zero bytes, a short transfer, or a full frame. -/
inductive ReadResult where
  | err
  | empty
  | short (n : ℕ)
  | packet (p : ImuPacket)
  deriving DecidableEq, Repr

/-- The local accumulator state of the device_imu_calibrate loop together
with the (process-global) iron-estimator extrema it advances.  The C locals
are uninitialized at entry; they are zeroed here, and every path of the
loop writes them before the install block reads them.  accumStarted models
the C variable `initialized`, which is declared false and never set, so the
else branch of the accumulation runs on every frame. -/
structure CalLoopState where
  cal_gyroscope : Vec3
  cal_accelerometer : Vec3
  prev_accel : Vec3
  accumStarted : Bool
  softIronMatrix : Mat3
  hardIronOffset : Vec3
  iron : IronState
  deriving DecidableEq, Repr

/-- Loop state at entry of device_imu_calibrate, given the current global
iron-estimator extrema. -/
def initCalLoopState (iron : IronState) : CalLoopState :=
  ⟨vecZero, vecZero, vecZero, false, matIdentity, vecZero, iron⟩

/-- The while loop of device_imu_calibrate (lines 721-775): consume reads
until `iterations` frames with the data signature (0x01, 0x02) have been
processed; a hard transport error aborts with unplugged, a short transfer
with unexpected; zero-byte reads and frames with other signatures are
skipped without counting.  `none` models exhaustion of the read oracle (the
C loop would keep blocking on the transport).  On an error the state at the
error point is returned alongside it. -/
def calibrateLoop : List ReadResult → ℕ → CalLoopState →
    Option (Option DeviceImuError × CalLoopState)
  | _, 0, st => some (none, st)
  | [], _ + 1, _ => none
  | r :: rest, n + 1, st =>
    match r with
    | .err => some (some .unplugged, st)
    | .empty => calibrateLoop rest (n + 1) st
    | .short _ => some (some .unexpected, st)
    | .packet p =>
      if p.signature0 != 0x01 || p.signature1 != 0x02 then
        calibrateLoop rest (n + 1) st
      else
        let (gyroscope, accelerometer, magnetometer) := readIMU_from_packet p
        let gyroscope := pre_biased_coordinate_system gyroscope
        let accelerometer := pre_biased_coordinate_system accelerometer
        let magnetometer := pre_biased_coordinate_system magnetometer
        let (cg, ca) :=
          if st.accumStarted then
            (vecAdd st.cal_gyroscope gyroscope,
             vecAdd st.cal_accelerometer (vecSub accelerometer st.prev_accel))
          else
            (gyroscope, vecZero)
        let r2 := iterate_iron_offset_estimation st.iron magnetometer
        calibrateLoop rest n
          ⟨cg, ca, accelerometer, st.accumStarted, r2.2.1, r2.2.2, r2.1⟩

/-- The part of a device session device_imu_calibrate touches: the transport
handle and the owned calibration record (both nullable in C). -/
structure Session where
  handle : Bool
  calibration : Option Calibration
  deriving DecidableEq, Repr

/-- device_imu_calibrate: guard checks, the read loop, then — only when the
requested iteration count was positive — the offset/iron install gated by
the three flags.  The factor is computed from the requested iteration count
before the loop.  Returns the error, the resulting session, and the
resulting global iron-estimator extrema; `none` models oracle exhaustion. -/
def device_imu_calibrate (dev : Option Session) (reads : List ReadResult)
    (iterations : ℕ) (gyro accel magnet : Bool) (iron : IronState) :
    Option (DeviceImuError × Option Session × IronState) :=
  match dev with
  | none => some (.noDevice, none, iron)
  | some s =>
    if !s.handle then some (.noHandle, some s, iron)
    else
      match s.calibration with
      | none => some (.noAllocation, some s, iron)
      | some cal =>
        if MAX_PACKET_SIZE ≠ device_imu_packet_size then
          some (.wrongSize, some s, iron)
        else
          match calibrateLoop reads iterations (initCalLoopState iron) with
          | none => none
          | some (some e, stE) => some (e, some s, stE.iron)
          | some (none, stF) =>
            if 0 < iterations then
              let factor : ℚ := 1 / (iterations : ℚ)
              let cal1 :=
                if gyro then
                  let off := vecAdd cal.gyroscopeOffset
                    (vecScale stF.cal_gyroscope (factor * (M_PI / 180)))
                  { cal with gyroscopeOffset := off }
                else cal
              let cal2 :=
                if accel then
                  let off := vecAdd cal1.accelerometerOffset
                    (vecScale stF.cal_accelerometer (factor * GRAVITY_G))
                  { cal1 with accelerometerOffset := off }
                else cal1
              let cal3 :=
                if magnet then
                  { cal2 with softIronMatrix := stF.softIronMatrix,
                              hardIronOffset := stF.hardIronOffset }
                else cal2
              some (.noError, some { s with calibration := some cal3 }, stF.iron)
            else
              some (.noError, some s, stF.iron)

/-- The magnetometer sample sequence named by the specification. -/
def sixMagSamples : List Vec3 :=
  [⟨1, 0, 0⟩, ⟨-1, 0, 0⟩, ⟨0, 1, 0⟩, ⟨0, -1, 0⟩, ⟨0, 0, 1⟩, ⟨0, 0, -1⟩]

/-- A concrete open session used by witness statements. -/
def sessW : Session := ⟨true, some defaultCalibration⟩

/-! ## Helper lemmas -/

/-- A value shifted left by a byte or-ed with a byte is plain positional
arithmetic. -/
theorem shiftLeft8_lor_eq_add (h a : ℕ) (ha : a < 256) :
    (h <<< 8) ||| a = 256 * h + a := by
  have ha8 : a < 2 ^ 8 := by simpa using ha
  apply Nat.eq_of_testBit_eq
  intro j
  have hrw : 256 * h + a = 2 ^ 8 * h + a := by norm_num
  rw [hrw, Nat.testBit_mul_pow_two_add h ha8 j]
  simp only [Nat.testBit_lor, Nat.testBit_shiftLeft]
  by_cases hj : j < 8
  · have h8 : ¬ (8 ≤ j) := by omega
    simp [hj, h8]
  · have ha2 : a < 2 ^ j :=
      lt_of_lt_of_le ha8 (Nat.pow_le_pow_right (by norm_num) (by omega))
    simp [hj, Nat.le_of_not_lt hj, Nat.testBit_lt_two_pow ha2]

/-- Extrema threading of the iron estimator: folding the update over a
sample list tracks the pointwise running maximum and minimum seeded with
the initial state. -/
theorem ironRun_extrema (samples : List Vec3) (st : IronState) :
    samples.foldl ironUpdate st =
      ⟨samples.foldl vecMax st.maxv, samples.foldl vecMin st.minv⟩ := by
  induction samples generalizing st with
  | nil => rfl
  | cons v rest ih =>
    simp only [List.foldl_cons]
    rw [ih]
    rfl

/-! ## Claims -/

/-- Claim C7: pack16bit_signed_bizarre on a byte pair (a, b) equals the
signed 16-bit little-endian decoding of the byte pair (a, b XOR 0x80),
both in the source's own pack16bit_signed form and in plain arithmetic
form; in particular bizarre16([0x34, 0x02]) decodes to -32204. -/
theorem claim_C7 (a b : ℕ) (ha : a < 256) (_hb : b < 256) :
    pack16bit_signed_bizarre [a, b] = pack16bit_signed [a, b ^^^ 0x80] ∧
    pack16bit_signed_bizarre [a, b] = signedLE16 a (b ^^^ 0x80) ∧
    pack16bit_signed_bizarre [0x34, 0x02] = -32204 := by
  refine ⟨rfl, ?_, by decide⟩
  show toSigned16 (((b ^^^ 0x80) <<< 8) ||| a) = toSigned16 (a + 256 * (b ^^^ 0x80))
  rw [shiftLeft8_lor_eq_add _ a ha, Nat.add_comm]

/-- Witness for C7 at the byte pair (0x34, 0x02). -/
theorem claim_C7_witness :
    pack16bit_signed_bizarre [52, 2] = pack16bit_signed [52, 2 ^^^ 128] ∧
    pack16bit_signed_bizarre [52, 2] = signedLE16 52 (2 ^^^ 128) ∧
    pack16bit_signed_bizarre [52, 2] = -32204 :=
  claim_C7 52 2 (by decide) (by decide)

/-- Claim C4: for every accepted data frame the AHRS update device_imu_read
performs is the magnetometer-free update on the given gyroscope,
accelerometer and deltaTime, whatever the magnetometer holds: the branch on
the magnetometer NaN test is equivalent to the unconditional
magnetometer-free call, and the magnetometer appears in no call reaching
the engine. -/
theorem claim_C4 (g a m : Vec3F) (dt : FVal) (o : QuatF) (cb : Bool) (ts : ℕ) :
    fusionUpdateCall g a m dt = AhrsCall.updateNoMagnetometer g a dt ∧
    (device_imu_read_fusion true cb g a m dt o ts).2.2 =
      [AhrsCall.updateNoMagnetometer g a dt] := by
  have hcall : fusionUpdateCall g a m dt = AhrsCall.updateNoMagnetometer g a dt := by
    unfold fusionUpdateCall
    split <;> rfl
  refine ⟨hcall, ?_⟩
  unfold device_imu_read_fusion
  simp only [if_true]
  split <;> simp [hcall]

/-- Claim C9 counterexample: when the static-id request itself cannot be
sent, device_imu_open neither substitutes the fallback constant nor
continues: it aborts with the payload-failed error. -/
theorem claim_C9_counterexample :
    staticIdPhase false none = Except.error DeviceImuError.payloadFailed ∧
    staticIdPhase false none ≠ Except.ok 0x20220101 := by
  refine ⟨rfl, ?_⟩
  intro h
  cases h

/-- Claim C9 amended: the static-id exchange is non-fatal only on the
response side: if the request was sent but the 4-byte response is not
received, open substitutes the constant 0x20220101 and continues; a
received id is kept; a failure to send the request aborts open with the
payload-failed error. -/
theorem claim_C9_amended :
    staticIdPhase true none = Except.ok 0x20220101 ∧
    (∀ v : ℕ, staticIdPhase true (some v) = Except.ok v) ∧
    (∀ r : Option ℕ, staticIdPhase false r =
      Except.error DeviceImuError.payloadFailed) :=
  ⟨rfl, fun _ => rfl, fun _ => rfl⟩

/-- Claim C3 counterexample: after the single magnetometer sample
(-1, -1, -1) the estimator's hard-iron x component is (-1 + FLT_MIN) / 2,
not the (max+min)/2 = -1 demanded by the running extrema over the observed
samples: the static maximum starts at FLT_MIN, a positive value, not below
every sample. -/
theorem claim_C3_counterexample :
    (ironCompute (ironRun [⟨-1, -1, -1⟩])).2.x ≠ (specIron ⟨-1, -1, -1⟩ []).2.x ∧
    (specIron ⟨-1, -1, -1⟩ []).2.x = -1 ∧
    (ironCompute (ironRun [⟨-1, -1, -1⟩])).2.x = (-1 + FLT_MIN) / 2 := by
  have hrun : ironRun [⟨-1, -1, -1⟩] =
      ⟨⟨FLT_MIN, FLT_MIN, FLT_MIN⟩, ⟨-1, -1, -1⟩⟩ := by
    unfold ironRun ironInit
    simp only [List.foldl_cons, List.foldl_nil]
    unfold ironUpdate
    norm_num [max_def, min_def, FLT_MIN, FLT_MAX]
  refine ⟨?_, by norm_num [specIron, specRunningMax, specRunningMin, ironCompute], ?_⟩
  · rw [hrun]
    show ((-1 : ℚ) + FLT_MIN) / 2 ≠ _
    norm_num [specIron, specRunningMax, specRunningMin, ironCompute, FLT_MIN]
  · rw [hrun]
    rfl

/-- Claim C3 amended: after each sample the estimator yields softIron and
hardIron computed from the running per-axis extrema of the observed samples
seeded with the static initial values -- the maximum clamped from below by
FLT_MIN and the minimum from above by FLT_MAX.  The six-sample sequence of
the specification still yields hardIron = (0,0,0) and
softIron = diag(1,1,1). -/
theorem claim_C3_amended :
    (∀ samples : List Vec3,
        ironRun samples =
          ⟨samples.foldl vecMax ⟨FLT_MIN, FLT_MIN, FLT_MIN⟩,
           samples.foldl vecMin ⟨FLT_MAX, FLT_MAX, FLT_MAX⟩⟩) ∧
    (ironCompute (ironRun sixMagSamples)).1 = matIdentity ∧
    (ironCompute (ironRun sixMagSamples)).2 = vecZero := by
  have hrun : ironRun sixMagSamples = ⟨⟨1, 1, 1⟩, ⟨-1, -1, -1⟩⟩ := by
    unfold ironRun sixMagSamples ironInit
    simp only [List.foldl_cons, List.foldl_nil]
    unfold ironUpdate
    norm_num [max_def, min_def, FLT_MIN, FLT_MAX]
  refine ⟨fun samples => ironRun_extrema samples ironInit, ?_, ?_⟩
  · rw [hrun]
    norm_num [ironCompute, matIdentity]
  · rw [hrun]
    norm_num [ironCompute, vecZero]

/-- The download loop consumes nothing and succeeds immediately when the
announced length is zero. -/
theorem downloadCal_zero (fetch : ℕ → TripResult) (idx : ℕ) :
    downloadCal fetch idx 0 = ⟨[], true, 0, []⟩ := by
  rw [downloadCal.eq_def]
  rfl

/-- One successful round trip of the download loop. -/
theorem downloadCal_ok (fetch : ℕ → TripResult) (idx remaining : ℕ)
    (h0 : remaining ≠ 0) (bytes : List ℕ) (hf : fetch idx = .ok bytes) :
    downloadCal fetch idx remaining =
      ⟨bytes.take (min 56 remaining)
         ++ (downloadCal fetch (idx + 1) (remaining - min 56 remaining)).data,
       (downloadCal fetch (idx + 1) (remaining - min 56 remaining)).completed,
       (downloadCal fetch (idx + 1) (remaining - min 56 remaining)).trips + 1,
       min 56 remaining ::
         (downloadCal fetch (idx + 1) (remaining - min 56 remaining)).requests⟩ := by
  rw [downloadCal.eq_def, if_neg h0, hf]

/-- A failed round trip aborts the download loop: it is the only round trip
started from there on, no data is stored, and the download is not
completed. -/
theorem downloadCal_fail (fetch : ℕ → TripResult) (idx remaining : ℕ)
    (h0 : remaining ≠ 0)
    (hf : fetch idx = TripResult.sendFail ∨ fetch idx = TripResult.recvFail) :
    (downloadCal fetch idx remaining).data = [] ∧
    (downloadCal fetch idx remaining).completed = false ∧
    (downloadCal fetch idx remaining).trips = 1 := by
  rcases hf with hf | hf <;> rw [downloadCal.eq_def, if_neg h0, hf] <;>
    exact ⟨rfl, rfl, rfl⟩

/-- The calibrate loop returns immediately when zero frames are requested. -/
theorem calibrateLoop_zero (reads : List ReadResult) (st : CalLoopState) :
    calibrateLoop reads 0 st = some (none, st) := by
  cases reads <;> rfl

/-- send_payload fails exactly on a transport shortfall, for in-range
requests. -/
theorem send_payload_false_iff (size : ℕ) (transferred : ℤ)
    (hsize : size ≤ 64) (ht : transferred ≤ (size : ℤ)) :
    (send_payload size transferred = false ↔ transferred < (size : ℤ)) := by
  unfold send_payload MAX_PACKET_SIZE
  have hng : ¬ ((size : ℤ) > ((64 : ℕ) : ℤ)) := by push_cast; omega
  rw [if_neg hng]
  by_cases hc : transferred = (size : ℤ)
  · rw [if_neg (by omega : ¬ transferred ≠ (size : ℤ))]
    simp [hc]
  · rw [if_pos hc]
    simp only [true_iff]
    omega

/-- recv_payload succeeds exactly when the transport delivered at least the
requested count, for nonempty in-range requests. -/
theorem recv_payload_true_iff (size : ℕ) (transferred : ℤ)
    (hsize : size ≤ 64) (hpos : 0 < size) :
    (recv_payload size transferred = true ↔ (size : ℤ) ≤ transferred) := by
  simp only [recv_payload, MAX_PACKET_SIZE]
  have hng : ¬ ((size : ℤ) > ((64 : ℕ) : ℤ)) := by push_cast; omega
  rw [if_neg hng]
  by_cases hge : transferred ≥ (size : ℤ)
  · rw [if_pos hge, if_neg (by omega : ¬ ((size : ℤ) = 0)),
      if_neg (by omega : ¬ ((size : ℤ) ≠ (size : ℤ)))]
    simp [hge]
  · rw [if_neg hge]
    by_cases h0 : transferred = 0
    · rw [if_pos h0]
      simp only [Bool.false_eq_true, false_iff]
      omega
    · rw [if_neg h0, if_pos (by omega : transferred ≠ (size : ℤ))]
      simp only [Bool.false_eq_true, false_iff]
      omega

/-- Claim C2: for every msgid and payload of at most 56 bytes,
send_payload_msg builds the frame with head byte 0xAA, a little-endian
length field equal to 3+len, and a checksum field equal to the
little-endian 32-bit checksum of the (3+len)-byte region starting at the
length field (length, msgid and the len data bytes; head and checksum
excluded); it hands exactly 5+(3+len) bytes to the transport, and reports
failure exactly when the transport accepts fewer bytes than requested. -/
theorem claim_C2 (crc : List ℕ → ℕ) (msgid : ℕ) (data : List ℕ)
    (transferred : ℤ) (hlen : data.length ≤ 56)
    (ht : transferred ≤ 5 + (3 + (data.length : ℤ))) :
    (send_payload_msg crc msgid data transferred).1 =
      0xAA :: le32 (crc (le16 (3 + data.length) ++ msgid :: data) % 4294967296) ++
        le16 (3 + data.length) ++ msgid :: data ∧
    (send_payload_msg crc msgid data transferred).1.length = 5 + (3 + data.length) ∧
    ((send_payload_msg crc msgid data transferred).2 = false ↔
      transferred < 5 + (3 + (data.length : ℤ))) := by
  refine ⟨rfl, ?_, ?_⟩
  · show (0xAA :: (le32 _ ++ (le16 _ ++ msgid :: data))).length = 5 + (3 + data.length)
    simp [le32, le16]
    omega
  · show (send_payload (5 + (3 + data.length)) transferred = false ↔ _)
    rw [send_payload_false_iff (5 + (3 + data.length)) transferred (by omega)
      (by push_cast; omega)]
    push_cast
    omega

/-- Witness for C2: a one-byte payload with an accepting transport. -/
theorem claim_C2_witness :
    (send_payload_msg (fun l => l.sum) 20 [7] 9).1 =
      0xAA :: le32 ((fun l : List ℕ => l.sum) (le16 (3 + 1) ++ 20 :: [7]) % 4294967296) ++
        le16 (3 + 1) ++ 20 :: [7] ∧
    (send_payload_msg (fun l => l.sum) 20 [7] 9).1.length = 5 + (3 + 1) ∧
    ((send_payload_msg (fun l => l.sum) 20 [7] 9).2 = false ↔ (9 : ℤ) < 5 + (3 + 1)) :=
  claim_C2 (fun l => l.sum) 20 [7] 9 (by decide) (by decide)

/-- Claim C5: recv_payload_msg asks the transport for exactly
5+3+expectedLen bytes, fails exactly when the transport delivered less than
that or the received frame's msgid field differs from the expected one (a
mismatched frame is dropped entirely, with no resynchronization: the one
read is the only transport interaction), and on success returns the frame's
len data bytes. -/
theorem claim_C5 (msgid len : ℕ) (transferred : ℤ) (bytes : List ℕ)
    (hlen : len ≤ 56) :
    recv_payload_msg_request len = 5 + (3 + len) ∧
    (recv_payload_msg msgid len transferred bytes = none ↔
      transferred < 5 + (3 + (len : ℤ)) ∨ bytes.getD 7 0 ≠ msgid) ∧
    (∀ d, recv_payload_msg msgid len transferred bytes = some d →
      bytes.getD 7 0 = msgid ∧ d = (bytes.drop 8).take len) := by
  have hr := recv_payload_true_iff (5 + (3 + len)) transferred (by omega) (by omega)
  refine ⟨rfl, ?_, ?_⟩
  · rcases hb : recv_payload (5 + (3 + len)) transferred with _ | _
    · have hlt : transferred < 5 + (3 + (len : ℤ)) := by
        by_contra hge
        have h2 : recv_payload (5 + (3 + len)) transferred = true :=
          hr.mpr (by push_cast; omega)
        rw [hb] at h2
        cases h2
      have hv : recv_payload_msg msgid len transferred bytes = none := by
        simp only [recv_payload_msg, hb]
        rfl
      rw [hv]
      simp [hlt]
    · have hge : ¬ (transferred < 5 + (3 + (len : ℤ))) := by
        have h2 := hr.mp hb
        push_cast at h2 ⊢
        omega
      by_cases hm : bytes.getD 7 0 = msgid
      · have hm2 : bytes[7]?.getD 0 = msgid := by simpa using hm
        have hv : recv_payload_msg msgid len transferred bytes =
            some ((bytes.drop 8).take len) := by
          simp only [recv_payload_msg, hb]
          simp [hm2]
        rw [hv]
        simp [hge]
        exact hm2
      · have hm2 : ¬ bytes[7]?.getD 0 = msgid := by simpa using hm
        have hv : recv_payload_msg msgid len transferred bytes = none := by
          simp only [recv_payload_msg, hb]
          simp [hm2]
        rw [hv]
        simp only [true_iff]
        exact Or.inr (by simpa using hm2)
  · intro d hd
    rcases hb : recv_payload (5 + (3 + len)) transferred with _ | _
    · have hv : recv_payload_msg msgid len transferred bytes = none := by
        simp only [recv_payload_msg, hb]
        rfl
      rw [hv] at hd
      cases hd
    · by_cases hm : bytes.getD 7 0 = msgid
      · have hm2 : bytes[7]?.getD 0 = msgid := by simpa using hm
        have hv : recv_payload_msg msgid len transferred bytes =
            some ((bytes.drop 8).take len) := by
          simp only [recv_payload_msg, hb]
          simp [hm2]
        rw [hv] at hd
        simp only [Option.some.injEq] at hd
        exact ⟨hm, hd.symm⟩
      · have hm2 : ¬ bytes[7]?.getD 0 = msgid := by simpa using hm
        have hv : recv_payload_msg msgid len transferred bytes = none := by
          simp only [recv_payload_msg, hb]
          simp [hm2]
        rw [hv] at hd
        cases hd

/-- Witness for C5: an 8-byte frame with a matching msgid, delivered in
full. -/
theorem claim_C5_witness :
    recv_payload_msg_request 0 = 5 + (3 + 0) ∧
    (recv_payload_msg 3 0 8 [170, 0, 0, 0, 0, 3, 0, 3] = none ↔
      (8 : ℤ) < 5 + (3 + 0) ∨ [170, 0, 0, 0, 0, 3, 0, 3].getD 7 0 ≠ 3) ∧
    (∀ d, recv_payload_msg 3 0 8 [170, 0, 0, 0, 0, 3, 0, 3] = some d →
      [170, 0, 0, 0, 0, 3, 0, 3].getD 7 0 = 3 ∧
      d = ([170, 0, 0, 0, 0, 3, 0, 3].drop 8).take 0) :=
  claim_C5 3 0 8 [170, 0, 0, 0, 0, 3, 0, 3] (by decide)

/-- Claim C6: an announced calibration length of 130 bytes is downloaded in
exactly three round trips requesting segments of 56, 56 and 18 bytes, and
the concatenation of the received segments is the original blob. -/
theorem claim_C6 (blob : List ℕ) (h : blob.length = 130) :
    downloadCal (fun k => TripResult.ok (blob.drop (56 * k))) 0 130 =
      ⟨blob, true, 3, [56, 56, 18]⟩ := by
  have e3 : downloadCal (fun k => TripResult.ok (blob.drop (56 * k))) 3 0 =
      ⟨[], true, 0, []⟩ := downloadCal_zero _ 3
  have e2 : downloadCal (fun k => TripResult.ok (blob.drop (56 * k))) 2 18 =
      ⟨(blob.drop 112).take 18, true, 1, [18]⟩ := by
    rw [downloadCal_ok _ 2 18 (by omega) (blob.drop (56 * 2)) rfl]
    norm_num [e3]
  have e1 : downloadCal (fun k => TripResult.ok (blob.drop (56 * k))) 1 74 =
      ⟨(blob.drop 56).take 56 ++ (blob.drop 112).take 18, true, 2, [56, 18]⟩ := by
    rw [downloadCal_ok _ 1 74 (by omega) (blob.drop (56 * 1)) rfl]
    norm_num [e2]
  rw [downloadCal_ok _ 0 130 (by omega) (blob.drop (56 * 0)) rfl]
  norm_num [e1]
  rw [← List.append_assoc, ← List.take_add, ← List.take_add,
    show (56 + 56 + 18 : ℕ) = 130 by norm_num, ← h, List.take_length]

/-- Witness for C6: the blob 0,1,...,129. -/
theorem claim_C6_witness :
    downloadCal (fun k => TripResult.ok ((List.range 130).drop (56 * k))) 0 130 =
      ⟨List.range 130, true, 3, [56, 56, 18]⟩ :=
  claim_C6 (List.range 130) (by simp)

/-- Claim C8 counterexample: an infinite (non-finite yet non-NaN)
orientation component does not trigger the invalid-value error: the UPDATE
event is dispatched anyway, because the code tests isnan, not finiteness. -/
theorem claim_C8_counterexample :
    (FVal.inf false).isFinite = false ∧
    device_imu_read_fusion true true vec3FZero vec3FZero vec3FZero (FVal.fin 0)
      ⟨FVal.inf false, FVal.fin 0, FVal.fin 0, FVal.fin 0⟩ 5 =
      (DeviceImuError.noError, [(5, DeviceImuEvent.update)],
        [AhrsCall.updateNoMagnetometer vec3FZero vec3FZero (FVal.fin 0)]) :=
  ⟨rfl, rfl⟩

/-- Claim C8 amended: with the AHRS engine present and a callback
registered, an accepted data frame whose read-back orientation has a NaN
component (the code tests isnan, so an infinite component does not count)
returns the invalid-value error and dispatches no event; otherwise exactly
one UPDATE event carrying the frame timestamp is dispatched. -/
theorem claim_C8_amended (g a m : Vec3F) (dt : FVal) (o : QuatF) (ts : ℕ) :
    ((o.x.isnan || o.y.isnan || o.z.isnan || o.w.isnan) = true →
      device_imu_read_fusion true true g a m dt o ts =
        (DeviceImuError.invalidValue, [],
          [AhrsCall.updateNoMagnetometer g a dt])) ∧
    ((o.x.isnan || o.y.isnan || o.z.isnan || o.w.isnan) = false →
      device_imu_read_fusion true true g a m dt o ts =
        (DeviceImuError.noError, [(ts, DeviceImuEvent.update)],
          [AhrsCall.updateNoMagnetometer g a dt])) := by
  have hcall : fusionUpdateCall g a m dt = AhrsCall.updateNoMagnetometer g a dt := by
    unfold fusionUpdateCall
    split <;> rfl
  constructor <;> intro h <;>
    simp [device_imu_read_fusion, h, hcall, device_imu_callback]

/-- Witness for C8: a NaN x component suppresses the event; an all-finite
orientation dispatches one UPDATE at timestamp 7. -/
theorem claim_C8_witness :
    device_imu_read_fusion true true vec3FZero vec3FZero vec3FZero (FVal.fin 0)
      ⟨FVal.nan, FVal.fin 0, FVal.fin 0, FVal.fin 0⟩ 7 =
      (DeviceImuError.invalidValue, [],
        [AhrsCall.updateNoMagnetometer vec3FZero vec3FZero (FVal.fin 0)]) ∧
    device_imu_read_fusion true true vec3FZero vec3FZero vec3FZero (FVal.fin 0)
      ⟨FVal.fin 0, FVal.fin 0, FVal.fin 0, FVal.fin 0⟩ 7 =
      (DeviceImuError.noError, [(7, DeviceImuEvent.update)],
        [AhrsCall.updateNoMagnetometer vec3FZero vec3FZero (FVal.fin 0)]) :=
  ⟨(claim_C8_amended vec3FZero vec3FZero vec3FZero (FVal.fin 0)
      ⟨FVal.nan, FVal.fin 0, FVal.fin 0, FVal.fin 0⟩ 7).1 rfl,
   (claim_C8_amended vec3FZero vec3FZero vec3FZero (FVal.fin 0)
      ⟨FVal.fin 0, FVal.fin 0, FVal.fin 0, FVal.fin 0⟩ 7).2 rfl⟩

/-- Claim C1 counterexample: with an announced calibration length of 130
bytes and the very first segment request failing, the download loop aborts,
but the session's calibration record does NOT keep its defaults: the
never-filled buffer is still parsed and the install block overwrites the
record (an unparseable buffer installs zero sensitivities and noises
(0,0,0,1)). -/
theorem claim_C1_counterexample :
    (downloadCal (fun _ => TripResult.sendFail) 0 130).completed = false ∧
    calPhase (fun _ _ => quatIdentity) (fun _ => matIdentity) (MsgExchange.ok 130)
      (fun _ => TripResult.sendFail) (List.replicate 130 0) (fun _ => none)
      defaultCalibration ≠ Except.ok defaultCalibration := by
  refine ⟨(downloadCal_fail _ 0 130 (by omega) (Or.inl rfl)).2.1, ?_⟩
  intro hEq
  have h2 : calInstall (fun _ _ => quatIdentity) (fun _ => matIdentity) none
      defaultCalibration = defaultCalibration := by
    injection hEq
  have h3 : (0 : ℚ) = 1 :=
    congrArg (fun c => c.gyroscopeSensitivity.x) h2
  norm_num at h3

/-- Claim C1 amended: a failed segment request or response aborts the
download loop (that round trip is the last one started), but the record
does not keep its defaults: the never-filled buffer (whatever malloc
content completes it) is still parsed and the parse result installed over
the record; in particular, when the parse yields nothing, the installed
record has zero sensitivity vectors and noises (0,0,0,1) instead of the
reset defaults (ones and (0,0,0,0)). -/
theorem claim_C1_amended (qmul : Quat → Quat → Quat) (q2m : Quat → Mat3)
    (fetch : ℕ → TripResult) (junk : List ℕ) (parse : List ℕ → Option CalDoc)
    (len : ℕ) (cal : Calibration) (hlen : len ≠ 0)
    (hfail : fetch 0 = TripResult.sendFail ∨ fetch 0 = TripResult.recvFail) :
    (downloadCal fetch 0 len).trips = 1 ∧
    (downloadCal fetch 0 len).completed = false ∧
    calPhase qmul q2m (MsgExchange.ok len) fetch junk parse cal =
      Except.ok (calInstall qmul q2m (parse (junk.take len)) cal) ∧
    (calInstall qmul q2m none cal).gyroscopeSensitivity = vecZero ∧
    (calInstall qmul q2m none cal).accelerometerSensitivity = vecZero ∧
    (calInstall qmul q2m none cal).magnetometerSensitivity = vecZero ∧
    (calInstall qmul q2m none cal).noises = quatIdentity := by
  obtain ⟨hd, hc, htr⟩ := downloadCal_fail fetch 0 len hlen hfail
  refine ⟨htr, hc, ?_, rfl, rfl, rfl, rfl⟩
  show Except.ok (calInstall qmul q2m
      (parse ((downloadCal fetch 0 len).data ++
        junk.take (len - (downloadCal fetch 0 len).data.length))) cal) = _
  rw [hd]
  simp

/-- Witness for C1: announced length 130, first segment send fails, JSON
parse yields nothing. -/
theorem claim_C1_witness :
    (downloadCal (fun _ => TripResult.sendFail) 0 130).trips = 1 ∧
    (downloadCal (fun _ => TripResult.sendFail) 0 130).completed = false ∧
    calPhase (fun _ _ => quatIdentity) (fun _ => matIdentity) (MsgExchange.ok 130)
      (fun _ => TripResult.sendFail) (List.replicate 130 0) (fun _ => none)
      defaultCalibration =
      Except.ok (calInstall (fun _ _ => quatIdentity) (fun _ => matIdentity) none
        defaultCalibration) ∧
    (calInstall (fun _ _ => quatIdentity) (fun _ => matIdentity) none
      defaultCalibration).gyroscopeSensitivity = vecZero ∧
    (calInstall (fun _ _ => quatIdentity) (fun _ => matIdentity) none
      defaultCalibration).accelerometerSensitivity = vecZero ∧
    (calInstall (fun _ _ => quatIdentity) (fun _ => matIdentity) none
      defaultCalibration).magnetometerSensitivity = vecZero ∧
    (calInstall (fun _ _ => quatIdentity) (fun _ => matIdentity) none
      defaultCalibration).noises = quatIdentity :=
  claim_C1_amended (fun _ _ => quatIdentity) (fun _ => matIdentity)
    (fun _ => TripResult.sendFail) (List.replicate 130 0) (fun _ => none)
    130 defaultCalibration (by omega) (Or.inl rfl)

/-- Claim C10: device_imu_calibrate returns the session untouched on every
error return (no device, no handle, no calibration record allocated, wrong
packet size, unplugged, unexpected transfer size), and a call with zero
requested iterations succeeds leaving the session and the estimator state
exactly unchanged. -/
theorem claim_C10 (dev : Option Session) (reads : List ReadResult)
    (iterations : ℕ) (gyro accel magnet : Bool) (iron : IronState) :
    (∀ e dev2 iron2,
        device_imu_calibrate dev reads iterations gyro accel magnet iron =
          some (e, dev2, iron2) →
        e ≠ DeviceImuError.noError → dev2 = dev) ∧
    (∀ s cal, iterations = 0 → dev = some s → s.handle = true →
        s.calibration = some cal →
        device_imu_calibrate dev reads iterations gyro accel magnet iron =
          some (DeviceImuError.noError, dev, iron)) := by
  constructor
  · intro e dev2 iron2 h hne
    cases dev with
    | none =>
      simp only [device_imu_calibrate, Option.some.injEq, Prod.mk.injEq] at h
      exact h.2.1.symm
    | some s =>
      simp only [device_imu_calibrate] at h
      split at h
      · simp only [Option.some.injEq, Prod.mk.injEq] at h
        exact h.2.1.symm
      · split at h
        · simp only [Option.some.injEq, Prod.mk.injEq] at h
          exact h.2.1.symm
        · split at h
          · simp only [Option.some.injEq, Prod.mk.injEq] at h
            exact h.2.1.symm
          · split at h
            · cases h
            · simp only [Option.some.injEq, Prod.mk.injEq] at h
              exact h.2.1.symm
            · split at h
              · simp only [Option.some.injEq, Prod.mk.injEq] at h
                exact absurd h.1.symm hne
              · simp only [Option.some.injEq, Prod.mk.injEq] at h
                exact absurd h.1.symm hne
  · intro s cal hit hdev hh hcal
    subst hit
    subst hdev
    simp [device_imu_calibrate, hh, hcal, MAX_PACKET_SIZE,
      device_imu_packet_size, calibrateLoop_zero, initCalLoopState]

/-- Witness for C10: zero iterations leave an open session with a default
record unchanged; a hard transport error returns unplugged with the same
session. -/
theorem claim_C10_witness :
    device_imu_calibrate (some sessW) [] 0 true true true ironInit =
      some (DeviceImuError.noError, some sessW, ironInit) ∧
    some sessW = some sessW :=
  ⟨(claim_C10 (some sessW) [] 0 true true true ironInit).2 sessW
      defaultCalibration rfl rfl rfl rfl,
   (claim_C10 (some sessW) [ReadResult.err] 1 true true true ironInit).1
      DeviceImuError.unplugged (some sessW) ironInit rfl
      (fun hcon => DeviceImuError.noConfusion hcon)⟩
